import Mathlib

/-
Verification of the virtual FAT12 USB mass-storage disk in src/src/disk.c
(repository dretay/stm32_usb_mass_storage).

Shallow embedding conventions:
  * Byte buffers are total functions Nat → Nat whose stored values are kept
    below 256 by the writers; reads that the C code performs through a `u8`
    lvalue are wrapped in `rd` (reduction mod 256), matching u8 storage.
  * disk_buffer (16 KiB) is indexed 0..16383 with the layout of disk.c:
    FAT1 at 0x000, FAT2 at 0x200, ROOT_SECTOR at 0x400, FILE_SECTOR at 0x600.
  * The registry `entries[FILE_ENTRY_CNT]` is modelled as a list of
    FILE_ENTRY records; an unregistered slot is one whose `entry` field is
    the empty byte string (entry[0] == '\0' in C).  The application-supplied
    callbacks are external collaborators: `validate` is an optional boolean
    predicate on the value bytes, `update` only mutates application state
    outside this subsystem and is therefore not part of the state, and
    `print` is modelled by the byte string it writes into its buffer.
  * Flash (the region at APP_BASE) is a second byte function in the state.
    HAL erase/program results are oracle parameters (they are external).
  * HAL_GetTick is passed in as `now`; u32 tick arithmetic is done mod 2^32.
  * The dirty-page bookkeeping and the commit routine follow the
    STM32F103xB build of disk.c (FLASH_PAGE_SIZE = 1024, per-page commit);
    the F411 build differs only inside rewrite_dirty_flash_pages.
-/

set_option maxRecDepth 100000

def SECTOR_SIZE : Nat := 512

def SECTOR_CNT : Nat := 4096

def FILE_ENTRY_CNT : Nat := 8

def FILE_ROW_CNT : Nat := 2048

def FILE_CHAR_CNT : Nat := 8192

def FILE_BUFFER_SIZE : Nat := 8192

def DISK_BUFFER_SIZE : Nat := 16384

def FAT2_OFF : Nat := 512

def ROOT_OFF : Nat := 1024

def FILE_OFF : Nat := 1536

def FILE_SECTOR_SIZE : Nat := DISK_BUFFER_SIZE - FILE_OFF

def FLASH_PAGE_SIZE : Nat := 1024

def FLASH_WRITE_DELAY_MS : Nat := 500

def DATA_FIRST_SECTOR : Nat := 64

def U32_MOD : Nat := 4294967296

/-- Read a buffer cell through a u8 lvalue: values are bytes mod 256. -/
def rd (d : Nat → Nat) (i : Nat) : Nat := d i % 256

/-- C string contents of a NUL-terminated byte list (bytes before the first NUL). -/
def cstr (l : List Nat) : List Nat := l.takeWhile (fun b => b ≠ 0)

/-- The Upper() helper of disk.c applied to one byte. -/
def upperByte (b : Nat) : Nat := if 97 ≤ b ∧ b ≤ 122 then b - 32 else b

/-- The 11 bytes of CONFIG_FILENAME, "CONFIG  TXT". -/
def CONFIG_NAME : List Nat := [67, 79, 78, 70, 73, 71, 32, 32, 84, 88, 84]

/-- The fat_data constant of disk.c. -/
def fat_data : List Nat := [248, 255, 255, 255, 255, 255]

/-- The initialized prefix of the compile-time boot sector BOOT_SEC. -/
def bootBytes : List Nat :=
  [0xEB, 0x3C, 0x90,
   109, 107, 100, 111, 115, 102, 115, 0x00,
   0x00, 0x02,
   0x01,
   0x08, 0x00,
   0x02,
   0x00, 0x02,
   0x50, 0x00,
   0xF8,
   0x0c, 0x00,
   0x01, 0x00,
   0x01, 0x00,
   0x00, 0x00, 0x00, 0x00,
   0x00, 0x00, 0x00, 0x00,
   0x00,
   0x00,
   0x29,
   0xA2, 0x98, 0xE4, 0x6C,
   82, 65, 77, 68, 73, 83, 75, 32, 32, 32, 32,
   70, 65, 84, 49, 50, 32, 32, 32]

/-- BOOT_SEC as a 512-byte sector (uninitialized tail is zero). -/
def bootSec (i : Nat) : Nat := bootBytes.getD i 0

/-- Compare `l.length` bytes of buffer `f` starting at `off` against list `l` (memcmp == 0). -/
def bufMatchesList (f : Nat → Nat) (l : List Nat) (off : Nat) : Bool :=
  match l with
  | [] => true
  | b :: rest => (f off == b) && bufMatchesList f rest (off + 1)

/-- memcmp(a, b, n) == 0 over two byte readers. -/
def bufEq (a b : Nat → Nat) (n : Nat) : Bool :=
  (List.range n).all (fun i => a i == b i)

/-- One slot of the entries[] registry (FILE_ENTRY in disk.h).  The update
callback only touches application state outside this subsystem, so it has no
representation here; `print` is modelled by the NUL-terminated byte string it
writes into the FILE_ROW_CNT-sized buffer handed to it. -/
structure FILE_ENTRY where
  entry : List Nat
  comment : List Nat
  default_value : Option (List Nat)
  validate : Option (List Nat → Bool)
  print : Option (List Nat)

/-- The mutable state of disk.c: the RAM mirror disk_buffer, the dirty page
mask, the flash backing region, the deferred-commit flag and tick, and the
static locals txt_flag / Config_flag of write_sector. -/
structure DiskState where
  disk : Nat → Nat
  dirty : Nat → Nat
  flash : Nat → Nat
  pending : Bool
  lastTick : Nat
  txtFlag : Nat
  configFlag : Nat

/-- set_fat12_entry of disk.c: write a packed 12-bit FAT entry at byte offset
cluster + cluster/2.  Index space is the FAT1 array (offset 0 in disk_buffer). -/
def set_fat12_entry (fat : Nat → Nat) (cluster value : Nat) : Nat → Nat :=
  if cluster % 2 = 1 then
    fun i =>
      if i = cluster + cluster / 2 then fat (cluster + cluster / 2) % 16 + value % 16 * 16
      else if i = cluster + cluster / 2 + 1 then value / 16 % 256
      else fat i
  else
    fun i =>
      if i = cluster + cluster / 2 then value % 256
      else if i = cluster + cluster / 2 + 1 then
        fat (cluster + cluster / 2 + 1) % 256 / 16 * 16 + value / 256 % 16
      else fat i

/-- Decode a packed 12-bit FAT entry (the packing described in disk.c's
comment on set_fat12_entry and in spec section 3). -/
def get_fat12_entry (fat : Nat → Nat) (cluster : Nat) : Nat :=
  if cluster % 2 = 1 then
    fat (cluster + cluster / 2) % 256 / 16 + fat (cluster + cluster / 2 + 1) % 256 * 16
  else fat (cluster + cluster / 2) % 256 + fat (cluster + cluster / 2 + 1) % 16 * 256

/-- The clusters_needed count of update_fat_chain: ⌈file_size/512⌉, minimum 1. -/
def fat_chain_len (file_size : Nat) : Nat :=
  if (file_size + SECTOR_SIZE - 1) / SECTOR_SIZE = 0 then 1
  else (file_size + SECTOR_SIZE - 1) / SECTOR_SIZE

/-- The cluster-chain loop of update_fat_chain: apply set_fat12_entry for
clusters 2 .. 2+k-1 (ascending), where the chain has n clusters in total. -/
def chainUpTo (d : Nat → Nat) (n : Nat) : Nat → Nat → Nat
  | 0 => d
  | k + 1 => set_fat12_entry (chainUpTo d n k) (2 + k) (if k = n - 1 then 4095 else 3 + k)

/-- FAT1 after update_fat_chain's memset (bytes 3..511 zeroed) and chain loop. -/
def chainAll (d : Nat → Nat) (file_size : Nat) : Nat → Nat :=
  chainUpTo (fun i => if 3 ≤ i ∧ i < 512 then 0 else d i)
    (fat_chain_len file_size) (fat_chain_len file_size)

/-- update_fat_chain of disk.c: reset FAT1 (keeping bytes 0..2), chain
⌈size/512⌉ (min 1) clusters from cluster 2, then copy FAT1 over FAT2. -/
def update_fat_chain (d : Nat → Nat) (file_size : Nat) : Nat → Nat :=
  fun i =>
    if 512 ≤ i ∧ i < 1024 then chainAll d file_size (i - 512) else chainAll d file_size i

/-- Scan of the first 16 root-directory entries of write_sector's sector-32
branch: raw (not upper-cased) memcmp of 11 name bytes against CONFIG_FILENAME,
over the freshly written sector bytes.  Returns the index of the first match. -/
def rawConfigScanAux (sec : Nat → Nat) : Nat → Option Nat
  | 0 => none
  | k + 1 =>
    let e := 16 - (k + 1)
    if bufMatchesList sec CONFIG_NAME (e * 32) then some e
    else rawConfigScanAux sec k

/-- First of the first 16 root entries whose raw name bytes are CONFIG_FILENAME. -/
def rawConfigScan (sec : Nat → Nat) : Option Nat := rawConfigScanAux sec 16

/-- Scan of the first 16 root-directory entries with Upper() applied before the
compare, as done by get_config_start_cluster and find_file.  `d` is the whole
disk_buffer; entries live at ROOT_OFF. -/
def upperConfigScanAux (d : Nat → Nat) : Nat → Option Nat
  | 0 => none
  | k + 1 =>
    let e := 16 - (k + 1)
    if bufMatchesList (fun i => upperByte (rd d (ROOT_OFF + e * 32 + i))) CONFIG_NAME 0 then some e
    else upperConfigScanAux d k

/-- get_config_start_cluster of disk.c: the 16-bit starting cluster recorded in
the first root entry named CONFIG.TXT, or 0 when absent. -/
def get_config_start_cluster (d : Nat → Nat) : Nat :=
  match upperConfigScanAux d 16 with
  | some e => rd d (ROOT_OFF + e * 32 + 0x1A) + 256 * rd d (ROOT_OFF + e * 32 + 0x1B)
  | none => 0

/-- find_file of disk.c specialised to its one caller pattern (CONFIG.TXT).
Returns the byte offset into disk_buffer of the pointer
FILE_SECTOR + (cluster - 2) * SECTOR_SIZE (computed with C int arithmetic, so
it may be any integer), the 16-bit size field, and the entry index. -/
def find_file (d : Nat → Nat) : Option (Int × Nat × Nat) :=
  match upperConfigScanAux d 16 with
  | some e =>
    let cluster := rd d (ROOT_OFF + e * 32 + 0x1A) + 256 * rd d (ROOT_OFF + e * 32 + 0x1B)
    some ((FILE_OFF : Int) + ((cluster : Int) - 2) * (SECTOR_SIZE : Int),
          rd d (ROOT_OFF + e * 32 + 0x1C) + 256 * rd d (ROOT_OFF + e * 32 + 0x1D),
          e)
  | none => none

/-- Does some registered entry's label followed by '=' sit at the start of the
buffer?  This is the "looks valid" test that validate_file and the data-sector
gatekeeper both run (memcmp of the label bytes, then a '=' check). -/
def startsWithLabelEq (es : List FILE_ENTRY) (f : Nat → Nat) : Bool :=
  es.any (fun e =>
    let label := cstr e.entry
    !label.isEmpty && bufMatchesList f label 0 && (f label.length == 61))

/-- Inner loop of the line splitter of validate_file: scan from position `i`
to the next line terminator (CRLF or LF), NUL or buffer end, storing at most
FILE_ROW_CNT - 1 bytes.  Returns (line bytes, stop position, line_ending_len);
the outer loop breaks afterwards iff the stop position is at a NUL or at the
end of file_buffer. -/
def scanLine (buf : Nat → Nat) : Nat → Nat → List Nat → List Nat × Nat × Nat
  | 0, i, acc => (acc.reverse, i, 1)
  | fuel + 1, i, acc =>
    if i ≥ FILE_BUFFER_SIZE then (acc.reverse, i, 1)
    else if buf i = 0 then (acc.reverse, i, 1)
    else if buf i = 13 ∧ buf (i + 1) = 10 then (acc.reverse, i, 2)
    else if buf i = 10 then (acc.reverse, i, 1)
    else scanLine buf fuel (i + 1)
      (if acc.length < FILE_ROW_CNT - 1 then buf i :: acc else acc)

/-- Outer loop of the line splitter: collect up to FILE_ENTRY_CNT lines. -/
def parseLinesAux (buf : Nat → Nat) : Nat → Nat → List (List Nat)
  | 0, _ => []
  | cnt + 1, m =>
    let r := scanLine buf FILE_BUFFER_SIZE m []
    if r.2.1 ≥ FILE_BUFFER_SIZE ∨ buf r.2.1 = 0 then [r.1]
    else r.1 :: parseLinesAux buf cnt (r.2.1 + r.2.2)

/-- Split file_buffer contents into parse_buffer lines, as validate_file does. -/
def parseLines (buf : Nat → Nat) : List (List Nat) := parseLinesAux buf FILE_ENTRY_CNT 0

/-- find_comment_start of disk.c on a NUL-free byte string: position of the
first tab that is immediately followed by '#'. -/
def findCommentPosAux : List Nat → Nat → Option Nat
  | [], _ => none
  | b :: rest, i =>
    if b = 9 ∧ rest.headD 0 = 35 then some i else findCommentPosAux rest (i + 1)

/-- Position of the comment marker in a value string, if any. -/
def findCommentPos (l : List Nat) : Option Nat := findCommentPosAux l 0

/-- Extract the clean value from a matched line: everything after "label=",
with a trailing tab-# comment stripped, capped at FILE_ROW_CNT - 1 bytes
(the MIN in the memcpy into value_buffer). -/
def stripValue (row : List Nat) (len : Nat) : List Nat :=
  let value := row.drop (len + 1)
  let vlen := (findCommentPos value).getD value.length
  value.take (min vlen (FILE_ROW_CNT - 1))

/-- The default line "label=default" written by snprintf on the failure paths,
truncated to the FILE_ROW_CNT-sized row. -/
def defaultLine (e : FILE_ENTRY) : List Nat :=
  (cstr e.entry ++ [61] ++ cstr (e.default_value.getD [])).take (FILE_ROW_CNT - 1)

/-- Functional update of one parse_buffer row. -/
def updateRow (pbuf : Nat → List Nat) (k : Nat) (row : List Nat) : Nat → List Nat :=
  fun idx => if idx = k then row else pbuf idx

/-- The line-search loop of validate_file's per-entry pass: first of the 8
parse_buffer rows that is non-empty and starts with "label=". -/
def firstMatchAux (pbuf : Nat → List Nat) (label : List Nat) : Nat → Option Nat
  | 0 => none
  | k + 1 =>
    let idx := 8 - (k + 1)
    let row := pbuf idx
    if !row.isEmpty && (row.take label.length == label) && (row.getD label.length 0 == 61)
    then some idx
    else firstMatchAux pbuf label k

/-- First parse_buffer row matching "label=". -/
def firstMatch (pbuf : Nat → List Nat) (label : List Nat) : Option Nat :=
  firstMatchAux pbuf label 8

/-- Per-entry resolution step of validate_file for registry slot k: search the
parsed rows, validate, and rewrite row k (via print or via the default line).
Returns the updated rows and illegal flag. -/
def processOne (st : (Nat → List Nat) × Bool) (k : Nat) (e : FILE_ENTRY) :
    (Nat → List Nat) × Bool :=
  let label := cstr e.entry
  if label.isEmpty then st
  else
    match firstMatch st.1 label with
    | some idx =>
      let value := stripValue (st.1 idx) label.length
      let ok := match e.validate with
                | none => true
                | some v => v value
      if ok then
        match e.print with
        | some line => (updateRow st.1 k ((cstr line).take (FILE_ROW_CNT - 1)), st.2)
        | none => st
      else (updateRow st.1 k (defaultLine e), true)
    | none => (updateRow st.1 k (defaultLine e), true)

/-- The whole per-entry pass of validate_file, in registration order. -/
def processEntries (es : List FILE_ENTRY) (pbuf0 : Nat → List Nat) :
    (Nat → List Nat) × Bool :=
  es.enum.foldl (fun st ke => processOne st ke.1 ke.2) (pbuf0, false)

/-- One append of the serialization loop of validate_file. -/
def rebuildStep (pbuf : Nat → List Nat) (acc : List Nat) (ke : Nat × FILE_ENTRY) : List Nat :=
  if (cstr ke.2.entry).isEmpty then acc
  else if acc.length + (pbuf ke.1).length + (cstr ke.2.comment).length < FILE_CHAR_CNT - 1
  then acc ++ pbuf ke.1 ++ cstr ke.2.comment else acc

/-- The serialization loop of validate_file: concatenate, in registration
order, each rendered row followed by the entry's stored comment, while the
total stays below FILE_CHAR_CNT - 1. -/
def rebuildContent (es : List FILE_ENTRY) (pbuf : Nat → List Nat) : List Nat :=
  es.enum.foldl (rebuildStep pbuf) []

/-- Source selection of validate_file (its first half): prefer p_file when it
looks valid, else FILE_SECTOR, else reload FILE_SECTOR from flash and retry,
else fall back to p_file.  Returns the possibly updated disk_buffer and the
byte reader for the chosen source. -/
def vf_select (es : List FILE_ENTRY) (st : DiskState) (pFileOff : Int) :
    (Nat → Nat) × (Nat → Nat) :=
  let fsValid := startsWithLabelEq es (fun i => rd st.disk (FILE_OFF + i))
  let pfRead : Nat → Nat := fun i => rd st.disk (Int.toNat (pFileOff + (i : Int)))
  let pfValid := if pFileOff ≠ (FILE_OFF : Int) then startsWithLabelEq es pfRead else false
  if pfValid then (st.disk, pfRead)
  else if fsValid then (st.disk, fun i => rd st.disk (FILE_OFF + i))
  else
    let d' := fun i => if FILE_OFF ≤ i ∧ i < DISK_BUFFER_SIZE then rd st.flash i else st.disk i
    if startsWithLabelEq es (fun i => rd d' (FILE_OFF + i)) then
      (d', fun i => rd d' (FILE_OFF + i))
    else (d', fun i => rd d' (Int.toNat (pFileOff + (i : Int))))

/-- The rows/illegal result of validate_file's parsing passes on a chosen source. -/
def vf_rows (es : List FILE_ENTRY) (src : Nat → Nat) : (Nat → List Nat) × Bool :=
  processEntries es (fun idx => (parseLines (fun i => src i)).getD idx [])

/-- The regenerated canonical file content for a chosen source. -/
def vf_contentOf (es : List FILE_ENTRY) (src : Nat → Nat) : List Nat :=
  rebuildContent es (vf_rows es src).1

/-- The content validate_file serializes for given inputs (exposed so theorems
can name it). -/
def vf_content (es : List FILE_ENTRY) (st : DiskState) (pFileOff : Int) : List Nat :=
  vf_contentOf es (vf_select es st pFileOff).2

/-- validate_file of disk.c.  `pFileOff` is the byte offset into disk_buffer of
the p_file argument, `root_addr` the directory-entry index.  Returns the
illegal flag and the updated state (only disk_buffer and the dirty mask are
touched; the entry update callbacks act outside this subsystem). -/
def validate_file (es : List FILE_ENTRY) (st : DiskState) (pFileOff : Int)
    (root_addr : Nat) : Bool × DiskState :=
  let sel := vf_select es st pFileOff
  let disk1 := sel.1
  let pr := vf_rows es sel.2
  let content := vf_contentOf es sel.2
  let m := content.length
  let base := ROOT_OFF + root_addr * 32
  let d2 := fun i =>
    if i = base + 0x1C then m % 256
    else if i = base + 0x1D then m / 256 % 256
    else if i = base + 0x1E then m / 65536 % 256
    else if i = base + 0x1F then m / 16777216 % 256
    else if i = base + 0x1A then 2
    else if i = base + 0x1B then 0
    else disk1 i
  let d3 := update_fat_chain d2 m
  let d4 := fun i =>
    if FILE_OFF ≤ i ∧ i < FILE_OFF + FILE_SECTOR_SIZE
    then content.getD (i - FILE_OFF) 0 else d3 i
  (pr.2, { st with disk := d4,
                   dirty := fun i => if i = 0 ∨ i = 1 then 1 else st.dirty i })

/-- read_sector of disk.c: the 512 bytes produced for a sector number.  The
function is pure in the source (it only fills the output buffer); here it is a
function of disk_buffer alone. -/
def read_sector (d : Nat → Nat) (s : Nat) : Nat → Nat :=
  if s = 0 then fun i => bootSec i
  else if 1 ≤ s ∧ s ≤ 7 then fun _ => 0
  else if 8 ≤ s ∧ s ≤ 19 then
    (if s = 8 then fun i => rd d i else fun _ => 0)
  else if 20 ≤ s ∧ s ≤ 31 then
    (if s = 20 then fun i => rd d (FAT2_OFF + i) else fun _ => 0)
  else if 32 ≤ s ∧ s ≤ 63 then
    (if s = 32 then fun i => rd d (ROOT_OFF + i) else fun _ => 0)
  else if 64 ≤ s ∧ s < SECTOR_CNT then
    (if (s - 64) * SECTOR_SIZE + SECTOR_SIZE ≤ FILE_SECTOR_SIZE
     then fun i => rd d (FILE_OFF + (s - 64) * SECTOR_SIZE + i)
     else fun _ => 0)
  else fun _ => 0

/-- FAT1 branch of write_sector (sector 8): overwrite the mirror and mark
page 0 dirty when the incoming bytes differ. -/
def write_fat1_sector (st : DiskState) (sec : Nat → Nat) : DiskState :=
  if bufEq sec (fun i => rd st.disk i) SECTOR_SIZE then st
  else { st with disk := fun a => if a < 512 then sec a else st.disk a,
                 dirty := fun j => if j = 0 then 1 else st.dirty j }

/-- FAT2 branch of write_sector (sector 20). -/
def write_fat2_sector (st : DiskState) (sec : Nat → Nat) : DiskState :=
  if bufEq sec (fun i => rd st.disk (FAT2_OFF + i)) SECTOR_SIZE then st
  else { st with disk := fun a => if FAT2_OFF ≤ a ∧ a < ROOT_OFF then sec (a - FAT2_OFF) else st.disk a,
                 dirty := fun j => if j = 0 then 1 else st.dirty j }

/-- The CONFIG.TXT bookkeeping of write_sector's differing sector-32 branch,
as a function of the scan result: record Config_flag / txt_flag, and clear the
FAT and root dirty bits when the u8-truncated size reads zero while txt_flag
is set (the scan itself sets txt_flag when it finds the entry); otherwise set
both dirty bits.  The config_filesize local is a u8, so
`entry[0x1C] | (entry[0x1D] << 8)` is truncated to its low byte. -/
def write_root_apply (st : DiskState) (sec : Nat → Nat) : Option Nat → DiskState
  | some e =>
    if (sec (e * 32 + 0x1C) + 256 * sec (e * 32 + 0x1D)) % 256 = 0 then
      { st with
        disk := fun a => if ROOT_OFF ≤ a ∧ a < FILE_OFF then sec (a - ROOT_OFF) else st.disk a,
        txtFlag := 0, configFlag := sec (e * 32 + 0x1A),
        dirty := fun j => if j = 0 ∨ j = 1 then 0 else if j = 1 then 1 else st.dirty j }
    else
      { st with
        disk := fun a => if ROOT_OFF ≤ a ∧ a < FILE_OFF then sec (a - ROOT_OFF) else st.disk a,
        txtFlag := 1, configFlag := sec (e * 32 + 0x1A),
        dirty := fun j => if j = 0 then 1 else if j = 1 then 1 else st.dirty j }
  | none =>
    if st.txtFlag = 1 then
      { st with
        disk := fun a => if ROOT_OFF ≤ a ∧ a < FILE_OFF then sec (a - ROOT_OFF) else st.disk a,
        txtFlag := 0,
        dirty := fun j => if j = 0 ∨ j = 1 then 0 else if j = 1 then 1 else st.dirty j }
    else
      { st with
        disk := fun a => if ROOT_OFF ≤ a ∧ a < FILE_OFF then sec (a - ROOT_OFF) else st.disk a,
        dirty := fun j => if j = 0 then 1 else if j = 1 then 1 else st.dirty j }

/-- Root-directory branch of write_sector (sector 32): on a differing write,
overwrite the mirror, mark the root page dirty, scan the new sector for
CONFIG.TXT (raw 11-byte compare) and apply the dirty/flag bookkeeping. -/
def write_root_sector (st : DiskState) (sec : Nat → Nat) : DiskState :=
  if bufEq sec (fun i => rd st.disk (ROOT_OFF + i)) SECTOR_SIZE then st
  else write_root_apply st sec (rawConfigScan sec)

/-- The gatekeeper classification of write_sector's data branch for a write to
`cluster`: allow CONFIG.TXT's recorded cluster; at cluster 2 require a
registered "label=" prefix; at clusters 3..31 with normalized canonical data
reject the dot-file byte signatures; allow everything else. -/
def dataAllow (es : List FILE_ENTRY) (disk : Nat → Nat) (cluster : Nat)
    (sec : Nat → Nat) : Bool :=
  if 0 < get_config_start_cluster disk ∧ cluster = get_config_start_cluster disk then true
  else if cluster = 2 then startsWithLabelEq es sec
  else if 2 < cluster ∧ cluster ≤ 2 + FILE_SECTOR_SIZE / SECTOR_SIZE ∧
          startsWithLabelEq es (fun i => rd disk (FILE_OFF + i)) = true then
    !(sec 0 == 0 || sec 0 == 5 || (sec 0 == 46 && sec 1 != 0))
  else true

/-- Data branch of write_sector (sectors 64..4095): bound check against the
file region, gatekeeper classification, then copy-if-different, marking dirty
bit (data_offset / FLASH_PAGE_SIZE) + 1. -/
def write_data_sector (es : List FILE_ENTRY) (st : DiskState) (sector : Nat)
    (sec : Nat → Nat) : DiskState :=
  if (sector - 64) * SECTOR_SIZE + SECTOR_SIZE > FILE_SECTOR_SIZE then st
  else if dataAllow es st.disk (sector - 64 + 2) sec then
    if bufEq sec (fun i => rd st.disk (FILE_OFF + (sector - 64) * SECTOR_SIZE + i)) SECTOR_SIZE
    then st
    else
      { st with
        disk := fun a =>
          if FILE_OFF + (sector - 64) * SECTOR_SIZE ≤ a ∧
             a < FILE_OFF + (sector - 64) * SECTOR_SIZE + 512
          then sec (a - (FILE_OFF + (sector - 64) * SECTOR_SIZE)) else st.disk a,
        dirty := fun j =>
          if j = (sector - 64) * SECTOR_SIZE / FLASH_PAGE_SIZE + 1 then 1 else st.dirty j }
  else st

/-- One iteration of write_sector's per-sector loop.  `sec` is the staged copy
of the incoming 512 bytes (already reduced to u8 by the copy into
pdisk_buffer_temp). -/
def writeOneSector (es : List FILE_ENTRY) (st : DiskState) (sector : Nat)
    (sec : Nat → Nat) : DiskState :=
  if 8 ≤ sector ∧ sector ≤ 19 then
    if sector = 8 then write_fat1_sector st sec else st
  else if 20 ≤ sector ∧ sector ≤ 31 then
    if sector = 20 then write_fat2_sector st sec else st
  else if 32 ≤ sector ∧ sector ≤ 63 then
    if sector = 32 then write_root_sector st sec else st
  else if 64 ≤ sector ∧ sector < SECTOR_CNT then
    write_data_sector es st sector sec
  else st

/-- write_sector of disk.c: stage the incoming bytes (u8 copy), process each
sector, then arm the deferred commit. -/
def write_sector (es : List FILE_ENTRY) (st : DiskState) (buff : Nat → Nat)
    (diskaddr length now : Nat) : DiskState :=
  { (List.range length).foldl
      (fun s j => writeOneSector es s (diskaddr + j) (fun i => buff (j * SECTOR_SIZE + i) % 256))
      st
    with pending := true, lastTick := now % U32_MOD }

/-- First index i < 16 with page_dirty_mask[i] nonzero (the F1 loop of
rewrite_dirty_flash_pages). -/
def firstDirtyAux (dirty : Nat → Nat) : Nat → Option Nat
  | 0 => none
  | k + 1 =>
    let i := 16 - (k + 1)
    if dirty i ≠ 0 then some i else firstDirtyAux dirty k

/-- First dirty page among the 16 the F1 commit loop inspects. -/
def firstDirty (dirty : Nat → Nat) : Option Nat := firstDirtyAux dirty 16

/-- rewrite_dirty_flash_pages of disk.c (STM32F103xB branch): find the first
dirty page, clear its bit, erase it and program it from the mirror, then stop.
The bit is cleared before the erase is even attempted; erase or program
failures (oracle arguments eraseOk / progOk, indexed by halfword) are only
logged.  The whole call is a no-op when no page is dirty. -/
def rewrite_dirty_flash_pages (st : DiskState) (eraseOk : Bool)
    (progOk : Nat → Bool) : DiskState :=
  match firstDirty st.dirty with
  | none => st
  | some i =>
    let base := i * FLASH_PAGE_SIZE
    let flash1 := if eraseOk
      then fun a => if base ≤ a ∧ a < base + FLASH_PAGE_SIZE then 255 else st.flash a
      else st.flash
    let flash2 := fun a =>
      if base ≤ a ∧ a < base + FLASH_PAGE_SIZE ∧ progOk ((a - base) / 2) = true
      then rd st.disk a else flash1 a
    { st with dirty := fun j => if j = i then 0 else st.dirty j, flash := flash2 }

/-- load_from_flash of disk.c: copy the flash region over the mirror and clear
the dirty mask. -/
def load_from_flash (st : DiskState) : DiskState :=
  { st with disk := fun i => if i < DISK_BUFFER_SIZE then rd st.flash i else st.disk i,
            dirty := fun _ => 0 }

/-- The bootstrap branch of flush_file (no CONFIG.TXT in the root directory):
zero the mirror, synthesize the directory entry and default file content, and
mark everything dirty.  snprintf's u32 size argument FILE_SECTOR_SIZE - m is
modelled with the same wrap-around the C computation has. -/
def flush_bootstrap (es : List FILE_ENTRY) (st : DiskState) (now : Nat) : DiskState :=
  let dz : Nat → Nat := fun i =>
    if i < DISK_BUFFER_SIZE then
      (if ROOT_OFF ≤ i ∧ i < ROOT_OFF + 12 then (CONFIG_NAME ++ [0]).getD (i - ROOT_OFF) 0
       else if i < 6 then fat_data.getD i 0
       else if FAT2_OFF ≤ i ∧ i < FAT2_OFF + 6 then fat_data.getD (i - FAT2_OFF) 0
       else 0)
    else st.disk i
  let step := fun (acc : (Nat → Nat) × Nat) (e : FILE_ENTRY) =>
    if (cstr e.entry).isEmpty then acc
    else
      let line := cstr e.entry ++ [61] ++ cstr (e.default_value.getD []) ++ cstr e.comment
      let avail := (FILE_SECTOR_SIZE + U32_MOD - acc.2 % U32_MOD) % U32_MOD
      let w := line.take (avail - 1)
      let d' := fun i =>
        if FILE_OFF + acc.2 ≤ i ∧ i < FILE_OFF + acc.2 + w.length
        then w.getD (i - (FILE_OFF + acc.2)) 0 else acc.1 i
      (d', acc.2 + line.length)
  let r := es.foldl step (dz, 0)
  let m := r.2 % U32_MOD
  let d1 := fun i =>
    if i = 0x40B then 0
    else if i = 0x416 then 0x18 else if i = 0x417 then 0x8D
    else if i = 0x418 then 0xDD else if i = 0x419 then 0x40
    else if i = 0x41A then 2
    else if i = 0x41C then m % 256
    else if i = 0x41D then m / 256 % 256
    else if i = 0x41E then m / 65536 % 256
    else if i = 0x41F then m / 16777216 % 256
    else r.1 i
  { st with disk := update_fat_chain d1 m,
            dirty := fun _ => 1,
            pending := true,
            lastTick := now % U32_MOD }

/-- flush_file of disk.c: validate/normalize when CONFIG.TXT exists, otherwise
synthesize the default image. -/
def flush_file (es : List FILE_ENTRY) (st : DiskState) (now : Nat) : DiskState :=
  match find_file st.disk with
  | some (off, _, root_addr) =>
    if (validate_file es st off root_addr).1 then
      { (validate_file es st off root_addr).2 with pending := true, lastTick := now % U32_MOD }
    else (validate_file es st off root_addr).2
  | none => flush_bootstrap es st now

/-- init of disk.c: load the mirror from flash, then flush_file. -/
def init (es : List FILE_ENTRY) (st : DiskState) (now : Nat) : DiskState :=
  flush_file es (load_from_flash st) now

/-- Elapsed u32 ticks HAL_GetTick() - last_write_tick. -/
def elapsedTicks (now last : Nat) : Nat :=
  (now % U32_MOD + U32_MOD - last % U32_MOD) % U32_MOD

/-- process of disk.c: when a deferred write is pending and FLASH_WRITE_DELAY_MS
have elapsed, re-validate CONFIG.TXT (if present with a nonzero 16-bit size),
commit via rewrite_dirty_flash_pages, and clear the pending flag. -/
def process (es : List FILE_ENTRY) (st : DiskState) (now : Nat) (eraseOk : Bool)
    (progOk : Nat → Bool) : DiskState :=
  if st.pending = true ∧ FLASH_WRITE_DELAY_MS ≤ elapsedTicks now st.lastTick then
    { rewrite_dirty_flash_pages
        (match find_file st.disk with
         | some (off, len, root_addr) =>
           if 0 < len then (validate_file es st off root_addr).2 else st
         | none => st)
        eraseOk progOk
      with pending := false }
  else st

/-- Claim-side predicate: the buffer begins with some registered entry's label
followed by '='. -/
def looks_like_config (es : List FILE_ENTRY) (f : Nat → Nat) : Prop :=
  ∃ e ∈ es, cstr e.entry ≠ [] ∧
    (∀ j, j < (cstr e.entry).length → f j = (cstr e.entry).getD j 0) ∧
    f (cstr e.entry).length = 61

/-- Claim-side read map for C3 (spec section 4.1), with the total-sector count
the boot sector actually encodes. -/
def read_sector_spec (d : Nat → Nat) (s i : Nat) : Nat :=
  if s = 0 then bootSec i
  else if s = 8 then rd d i
  else if s = 20 then rd d (FAT2_OFF + i)
  else if s = 32 then rd d (ROOT_OFF + i)
  else if 64 ≤ s ∧ s < SECTOR_CNT ∧ (s - 64) * SECTOR_SIZE + SECTOR_SIZE ≤ FILE_SECTOR_SIZE
  then rd d (FILE_OFF + (s - 64) * SECTOR_SIZE + i)
  else 0

/-- The BPB geometry that BOOT_SEC actually encodes: 512-byte sectors, 1 sector
per cluster, 8 reserved sectors, 2 FATs of 12 sectors, 512 root entries, media
byte 0xF8, type "FAT12   " — and a 16-bit total-sector count of 80 (0x50) with
the 32-bit large-sector count 0. -/
def boot_sector_geometry : Prop :=
  bootSec 11 + 256 * bootSec 12 = 512 ∧
  bootSec 13 = 1 ∧
  bootSec 14 + 256 * bootSec 15 = 8 ∧
  bootSec 16 = 2 ∧
  bootSec 17 + 256 * bootSec 18 = 512 ∧
  bootSec 19 + 256 * bootSec 20 = 80 ∧
  bootSec 21 = 248 ∧
  bootSec 22 + 256 * bootSec 23 = 12 ∧
  bootSec 32 + 256 * bootSec 33 + 65536 * bootSec 34 + 16777216 * bootSec 35 = 0 ∧
  (∀ j, j < 8 → bootSec (54 + j) = [70, 65, 84, 49, 50, 32, 32, 32].getD j 0)

/-- Claim C1's classification and effects for a single data-sector write,
stated from the spec's wording (section 4.6), with the dirty-bit index the
code actually uses. -/
def dataWriteOutcome (es : List FILE_ENTRY) (st : DiskState) (buff : Nat → Nat)
    (s now : Nat) : Prop :=
  let sec : Nat → Nat := fun i => buff i % 256
  let off := (s - 64) * SECTOR_SIZE
  let cl := s - 64 + 2
  let cc := get_config_start_cluster st.disk
  let canon := looks_like_config es (fun i => rd st.disk (FILE_OFF + i))
  let accepted : Prop :=
    (0 < cc ∧ cl = cc) ∨
    (¬(0 < cc ∧ cl = cc) ∧ cl = 2 ∧ looks_like_config es sec) ∨
    (¬(0 < cc ∧ cl = cc) ∧ cl ≠ 2 ∧
      (2 < cl ∧ cl ≤ 2 + FILE_SECTOR_SIZE / SECTOR_SIZE ∧ canon) ∧
      ¬(sec 0 = 0 ∨ sec 0 = 5 ∨ (sec 0 = 46 ∧ sec 1 ≠ 0))) ∨
    (¬(0 < cc ∧ cl = cc) ∧ cl ≠ 2 ∧
      ¬(2 < cl ∧ cl ≤ 2 + FILE_SECTOR_SIZE / SECTOR_SIZE ∧ canon))
  let st' := write_sector es st buff s 1 now
  (accepted → ¬(∀ i, i < 512 → sec i = rd st.disk (FILE_OFF + off + i)) →
    st'.disk = (fun a => if FILE_OFF + off ≤ a ∧ a < FILE_OFF + off + 512
                         then sec (a - (FILE_OFF + off)) else st.disk a) ∧
    st'.dirty = (fun j => if j = off / FLASH_PAGE_SIZE + 1 then 1 else st.dirty j)) ∧
  (¬accepted → st'.disk = st.disk ∧ st'.dirty = st.dirty)

/-- Claim C5's effects for a differing write to the root-directory sector,
with the size test the code actually performs (the u8-truncated low byte) and
the seen-flag semantics it actually has. -/
def rootWriteOutcome (es : List FILE_ENTRY) (st : DiskState) (buff : Nat → Nat)
    (now : Nat) : Prop :=
  let sec : Nat → Nat := fun i => buff i % 256
  let st' := write_sector es st buff 32 1 now
  st'.disk = (fun a => if ROOT_OFF ≤ a ∧ a < FILE_OFF then sec (a - ROOT_OFF) else st.disk a) ∧
  (∀ j, 2 ≤ j → st'.dirty j = st.dirty j) ∧
  (∀ e, rawConfigScan sec = some e →
    st'.configFlag = sec (e * 32 + 0x1A) ∧
    (sec (e * 32 + 0x1C) = 0 →
      st'.dirty 0 = 0 ∧ st'.dirty 1 = 0 ∧ st'.txtFlag = 0) ∧
    (sec (e * 32 + 0x1C) ≠ 0 →
      st'.dirty 0 = 1 ∧ st'.dirty 1 = 1 ∧ st'.txtFlag = 1)) ∧
  (rawConfigScan sec = none →
    st'.configFlag = st.configFlag ∧
    (st.txtFlag = 1 → st'.dirty 0 = 0 ∧ st'.dirty 1 = 0 ∧ st'.txtFlag = 0) ∧
    (st.txtFlag ≠ 1 → st'.dirty 0 = 1 ∧ st'.dirty 1 = 1 ∧ st'.txtFlag = st.txtFlag))

/-- Claim C2's postcondition for validate_file: canonical cluster 2, 32-bit
size equal to the serialized length, serialized bytes at FILE_SECTOR offset 0,
zero fill to the end of the file region. -/
def validateFileOutcome (es : List FILE_ENTRY) (st : DiskState) (pOff : Int)
    (ra : Nat) : Prop :=
  let r := validate_file es st pOff ra
  let content := vf_content es st pOff
  let m := content.length
  let base := ROOT_OFF + ra * 32
  r.2.disk (base + 0x1A) = 2 ∧
  r.2.disk (base + 0x1B) = 0 ∧
  r.2.disk (base + 0x1C) + 256 * r.2.disk (base + 0x1D) +
    65536 * r.2.disk (base + 0x1E) + 16777216 * r.2.disk (base + 0x1F) = m ∧
  (∀ i, i < m → r.2.disk (FILE_OFF + i) = content.getD i 0) ∧
  (∀ i, m ≤ i → i < FILE_SECTOR_SIZE → r.2.disk (FILE_OFF + i) = 0)

/-- Claim C4's description of update_fat_chain, read back from the final
buffer: preserved reserved bytes, the chain entries, the zeroed remainder,
FAT2 = FAT1, and the nibble discipline of set_fat12_entry. -/
def fatChainOutcome (d : Nat → Nat) (size : Nat) : Prop :=
  let f := update_fat_chain d size
  let n := fat_chain_len size
  (f 0 = d 0 ∧ f 1 = d 1 ∧ f 2 = d 2) ∧
  (∀ i, i < n - 1 → get_fat12_entry f (2 + i) = 3 + i) ∧
  get_fat12_entry f (n + 1) = 4095 ∧
  (∀ j, (n + 1) + (n + 1) / 2 + 2 ≤ j → j < 512 → f j = 0) ∧
  (∀ j, j < 512 → f (512 + j) = f j) ∧
  (∀ (d' : Nat → Nat) (c v j : Nat),
    (j ≠ c + c / 2 → j ≠ c + c / 2 + 1 → set_fat12_entry d' c v j = d' j) ∧
    (c % 2 = 1 → set_fat12_entry d' c v (c + c / 2) % 16 = d' (c + c / 2) % 16) ∧
    (c % 2 = 0 → set_fat12_entry d' c v (c + c / 2 + 1) / 16 = d' (c + c / 2 + 1) % 256 / 16))

/-- Concrete registry used by witnesses and counterexamples: a single entry
labelled "A" with default value "x", stored comment "\t#c\r\n" (as
register_entry formats it from "#c"), no validator, and a printer that renders
the canonical line "A=x". -/
def es0 : List FILE_ENTRY :=
  [{ entry := [65], comment := [9, 35, 99, 13, 10], default_value := some [120],
     validate := none, print := some [65, 61, 120] }]

/-- The canonical serialized file for es0: "A=x\t#c\r\n". -/
def fileContent0 : List Nat := [65, 61, 120, 9, 35, 99, 13, 10]

/-- A flash image holding a valid canonical volume for es0: FAT chain for one
cluster, CONFIG.TXT directory entry (cluster 2, size 8), and the canonical
file bytes at the FILE_SECTOR offset. -/
def flash0 : Nat → Nat := fun i =>
  if i < 6 then [248, 255, 255, 255, 15, 0].getD i 0
  else if FAT2_OFF ≤ i ∧ i < FAT2_OFF + 6 then [248, 255, 255, 255, 15, 0].getD (i - FAT2_OFF) 0
  else if ROOT_OFF ≤ i ∧ i < ROOT_OFF + 11 then CONFIG_NAME.getD (i - ROOT_OFF) 0
  else if i = ROOT_OFF + 0x1A then 2
  else if i = ROOT_OFF + 0x1C then 8
  else if FILE_OFF ≤ i ∧ i < FILE_OFF + 8 then fileContent0.getD (i - FILE_OFF) 0
  else 0

/-- Device state at power-up over the valid flash image flash0. -/
def st0 : DiskState :=
  { disk := fun _ => 0, dirty := fun _ => 0, flash := flash0,
    pending := false, lastTick := 0, txtFlag := 0, configFlag := 0 }

/-- All-zero device state (flash erased, mirror zero, flags clear). -/
def stz : DiskState :=
  { disk := fun _ => 0, dirty := fun _ => 0, flash := fun _ => 0,
    pending := false, lastTick := 0, txtFlag := 0, configFlag := 0 }

/-- Incoming root-directory sector whose first entry is CONFIG.TXT with size
field 256 (byte 0x1C = 0, byte 0x1D = 1). -/
def buffc5 : Nat → Nat := fun i =>
  if i < 11 then CONFIG_NAME.getD i 0 else if i = 0x1D then 1 else 0

/-- A disk_buffer whose root directory records CONFIG.TXT with starting
cluster 100 and a nonzero size field. -/
def d10 : Nat → Nat := fun i =>
  if ROOT_OFF ≤ i ∧ i < ROOT_OFF + 11 then CONFIG_NAME.getD (i - ROOT_OFF) 0
  else if i = ROOT_OFF + 0x1A then 100
  else if i = ROOT_OFF + 0x1C then 1
  else 0

/-- Zero state with only page 2 dirty. -/
def stD : DiskState := { stz with dirty := fun j => if j = 2 then 1 else 0 }

/-- Zero state with a pending deferred write. -/
def st9 : DiskState := { stz with pending := true }

/-- C8 counterexample trace, step 1: power-up over the valid image. -/
def c8s1 : DiskState := init es0 st0 0

/-- C8 counterexample trace, step 2: the host writes an all-zero FAT sector
(accepted, it differs from the mirror). -/
def c8s2 : DiskState := write_sector es0 c8s1 (fun _ => 0) 8 1 10

/-- C8 counterexample trace, step 3: write back to sector 8 exactly the bytes
a read_sector of sector 8 returns. -/
def c8s3 : DiskState := write_sector es0 c8s2 (fun i => read_sector c8s2.disk 8 i) 8 1 20

/-- C8 counterexample trace, step 4: the deferred commit fires 500 ms later. -/
def c8s4 : DiskState := process es0 c8s3 520 true (fun _ => true)

theorem rd_mod (d : Nat → Nat) (i : Nat) : rd d i % 256 = rd d i := by
  unfold rd; omega

theorem bufEq_true_iff (a b : Nat → Nat) (n : Nat) :
    bufEq a b n = true ↔ ∀ i, i < n → a i = b i := by
  unfold bufEq
  rw [List.all_eq_true]
  constructor
  · intro h i hi
    have := h i (List.mem_range.mpr hi)
    exact beq_iff_eq.mp this
  · intro h i hi
    exact beq_iff_eq.mpr (h i (List.mem_range.mp hi))

theorem bufMatchesList_iff (f : Nat → Nat) (l : List Nat) (off : Nat) :
    bufMatchesList f l off = true ↔ ∀ j, j < l.length → f (off + j) = l.getD j 0 := by
  induction l generalizing off with
  | nil => simp [bufMatchesList]
  | cons b rest ih =>
    unfold bufMatchesList
    rw [Bool.and_eq_true, beq_iff_eq, ih]
    constructor
    · rintro ⟨h0, hr⟩ j hj
      cases j with
      | zero => simpa using h0
      | succ j' =>
        have := hr j' (by simpa using hj)
        rw [show off + (j' + 1) = off + 1 + j' by omega]
        simpa using this
    · intro h
      refine ⟨by simpa using h 0 (by simp), ?_⟩
      intro j hj
      have := h (j + 1) (by simp; omega)
      rw [show off + 1 + j = off + (j + 1) by omega]
      simpa using this

theorem startsWithLabelEq_iff (es : List FILE_ENTRY) (f : Nat → Nat) :
    startsWithLabelEq es f = true ↔ looks_like_config es f := by
  unfold startsWithLabelEq looks_like_config
  rw [List.any_eq_true]
  apply exists_congr
  intro e
  constructor
  · rintro ⟨he, hb⟩
    rw [Bool.and_eq_true, Bool.and_eq_true] at hb
    obtain ⟨⟨h1, h2⟩, h3⟩ := hb
    refine ⟨he, ?_, ?_, beq_iff_eq.mp h3⟩
    · intro hemp; rw [hemp] at h1; simp at h1
    · intro j hj
      have := (bufMatchesList_iff f (cstr e.entry) 0).mp h2 j hj
      simpa using this
  · rintro ⟨he, hne, hmatch, heq⟩
    refine ⟨he, ?_⟩
    rw [Bool.and_eq_true, Bool.and_eq_true]
    refine ⟨⟨?_, ?_⟩, beq_iff_eq.mpr heq⟩
    · simp [List.isEmpty_iff, hne]
    · rw [bufMatchesList_iff]
      intro j hj
      simpa using hmatch j hj

theorem set_fat12_entry_ne (d : Nat → Nat) (c v j : Nat)
    (h1 : j ≠ c + c / 2) (h2 : j ≠ c + c / 2 + 1) :
    set_fat12_entry d c v j = d j := by
  unfold set_fat12_entry
  by_cases hp : c % 2 = 1 <;> simp [hp, h1, h2]

theorem get_set_fat12 (d : Nat → Nat) (c v : Nat) (hv : v < 4096) :
    get_fat12_entry (set_fat12_entry d c v) c = v := by
  unfold get_fat12_entry set_fat12_entry
  have hne : c + c / 2 + 1 ≠ c + c / 2 := by omega
  by_cases hp : c % 2 = 1 <;> simp [hp, hne] <;> omega

theorem get_congr (f g : Nat → Nat) (c : Nat)
    (h1 : f (c + c / 2) = g (c + c / 2)) (h2 : f (c + c / 2 + 1) = g (c + c / 2 + 1)) :
    get_fat12_entry f c = get_fat12_entry g c := by
  unfold get_fat12_entry
  by_cases hp : c % 2 = 1 <;> simp [hp, h1, h2]

theorem get_preserved (d : Nat → Nat) (c c' v' : Nat) (_h2 : 2 ≤ c) (hcc : c < c') :
    get_fat12_entry (set_fat12_entry d c' v') c = get_fat12_entry d c := by
  have hmono : c + c / 2 < c' + c' / 2 := by omega
  by_cases hone : c' + c' / 2 = c + c / 2 + 1
  · have hcodd : c' % 2 = 1 := by omega
    have hceven : ¬(c % 2 = 1) := by omega
    have e1 : ¬(c + c / 2 = c' + c' / 2) := by omega
    have e2 : ¬(c + c / 2 = c' + c' / 2 + 1) := by omega
    have e3 : c + c / 2 + 1 = c' + c' / 2 := by omega
    simp only [get_fat12_entry, set_fat12_entry, hcodd, hceven, if_true, if_false,
               e1, e2, e3, if_pos]
    omega
  · have hg1 := set_fat12_entry_ne d c' v' (c + c / 2) (by omega) (by omega)
    have hg2 := set_fat12_entry_ne d c' v' (c + c / 2 + 1) (by omega) (by omega)
    exact get_congr _ _ c hg1 hg2

theorem chain_outside (d : Nat → Nat) (n : Nat) :
    ∀ k j, (j < 3 ∨ (k + 1) + (k + 1) / 2 + 1 < j) → chainUpTo d n k j = d j := by
  intro k
  induction k with
  | zero => intro j _; rfl
  | succ k ih =>
    intro j hj
    unfold chainUpTo
    rw [set_fat12_entry_ne _ _ _ j (by omega) (by omega)]
    exact ih j (by omega)

theorem chain_entries (d : Nat → Nat) (n : Nat) (hn : n ≤ 339) :
    ∀ k, k ≤ n → ∀ i, i < k →
      get_fat12_entry (chainUpTo d n k) (2 + i) = (if i = n - 1 then 4095 else 3 + i) := by
  intro k
  induction k with
  | zero => intro _ i hi; omega
  | succ k ih =>
    intro hk i hi
    unfold chainUpTo
    by_cases hik : i = k
    · subst hik
      rw [get_set_fat12]
      split <;> omega
    · rw [get_preserved _ _ _ _ (by omega) (by omega)]
      exact ih (by omega) i (by omega)

theorem fat_chain_len_le (size : Nat) (hs : size ≤ 173568) : fat_chain_len size ≤ 339 := by
  unfold fat_chain_len SECTOR_SIZE
  have : (size + 512 - 1) / 512 ≤ 339 := by omega
  split <;> omega

theorem fat_chain_len_pos (size : Nat) : 1 ≤ fat_chain_len size := by
  unfold fat_chain_len SECTOR_SIZE
  split <;> omega

theorem chainAll_outside (d : Nat → Nat) (size j : Nat) (hs : size ≤ 173568)
    (hj : j < 3 ∨ 512 ≤ j) : chainAll d size j = d j := by
  have h339 := fat_chain_len_le size hs
  unfold chainAll
  rw [chain_outside _ _ _ j (by omega)]
  show (if 3 ≤ j ∧ j < 512 then 0 else d j) = d j
  rw [if_neg (by omega)]

theorem update_fat_chain_high (d : Nat → Nat) (size j : Nat)
    (hs : size ≤ 173568) (hj : 1024 ≤ j) :
    update_fat_chain d size j = d j := by
  show (if 512 ≤ j ∧ j < 1024 then chainAll d size (j - 512) else chainAll d size j) = d j
  rw [if_neg (by omega)]
  exact chainAll_outside d size j hs (Or.inr (by omega))

theorem update_fat_chain_low (d : Nat → Nat) (size j : Nat) (hj : j < 512) :
    update_fat_chain d size j = chainAll d size j := by
  show (if 512 ≤ j ∧ j < 1024 then chainAll d size (j - 512) else chainAll d size j) = _
  rw [if_neg (by omega)]

theorem chainAll_zero (d : Nat → Nat) (size j : Nat) (h3 : 3 ≤ j) (h512 : j < 512)
    (hbig : (fat_chain_len size + 1) + (fat_chain_len size + 1) / 2 + 1 < j) :
    chainAll d size j = 0 := by
  unfold chainAll
  rw [chain_outside _ _ _ j (Or.inr hbig)]
  show (if 3 ≤ j ∧ j < 512 then 0 else d j) = 0
  rw [if_pos ⟨h3, h512⟩]

theorem chainAll_entries (d : Nat → Nat) (size : Nat) (hs : size ≤ 173568) :
    ∀ i, i < fat_chain_len size →
      get_fat12_entry (chainAll d size) (2 + i) =
        (if i = fat_chain_len size - 1 then 4095 else 3 + i) := by
  intro i hi
  unfold chainAll
  exact chain_entries _ _ (fat_chain_len_le size hs) _ le_rfl i hi

theorem set_fat12_nibble (d' : Nat → Nat) (c v j : Nat) :
    (j ≠ c + c / 2 → j ≠ c + c / 2 + 1 → set_fat12_entry d' c v j = d' j) ∧
    (c % 2 = 1 → set_fat12_entry d' c v (c + c / 2) % 16 = d' (c + c / 2) % 16) ∧
    (c % 2 = 0 → set_fat12_entry d' c v (c + c / 2 + 1) / 16 = d' (c + c / 2 + 1) % 256 / 16) := by
  refine ⟨fun h1 h2 => set_fat12_entry_ne d' c v j h1 h2, ?_, ?_⟩
  · intro hodd
    simp only [set_fat12_entry, hodd, eq_self_iff_true, if_true]
    omega
  · intro heven
    have hodd' : ¬(c % 2 = 1) := by omega
    have hne : ¬(c + c / 2 + 1 = c + c / 2) := by omega
    simp only [set_fat12_entry, hodd', if_false, hne, eq_self_iff_true, if_true]
    omega

/-- Claim C4 (amended): for file sizes whose cluster chain fits inside the
512-byte FAT sector (all call sites satisfy this), update_fat_chain keeps FAT
bytes 0..2, installs the chain 2 → 3 → … → EOF readable back from FAT1, zeroes
the remainder of FAT1, copies FAT1 over FAT2, and set_fat12_entry touches only
the four value bits of the byte shared between two packed entries. -/
theorem c4_update_fat_chain (d : Nat → Nat) (size : Nat) (hs : size ≤ 173568) :
    fatChainOutcome d size := by
  have hpos := fat_chain_len_pos size
  have h339 := fat_chain_len_le size hs
  have hlow := update_fat_chain_low d size
  have hout := chainAll_outside d size
  refine ⟨⟨?_, ?_, ?_⟩, ?_, ?_, ?_, ?_, ?_⟩
  · rw [hlow 0 (by omega), hout 0 hs (Or.inl (by omega))]
  · rw [hlow 1 (by omega), hout 1 hs (Or.inl (by omega))]
  · rw [hlow 2 (by omega), hout 2 hs (Or.inl (by omega))]
  · intro i hi
    have h1 := hlow ((2 + i) + (2 + i) / 2) (by omega)
    have h2' := hlow ((2 + i) + (2 + i) / 2 + 1) (by omega)
    rw [get_congr _ _ _ h1 h2', chainAll_entries d size hs i (by omega), if_neg (by omega)]
  · have h1 := hlow ((fat_chain_len size + 1) + (fat_chain_len size + 1) / 2) (by omega)
    have h2' := hlow ((fat_chain_len size + 1) + (fat_chain_len size + 1) / 2 + 1) (by omega)
    rw [get_congr _ _ _ h1 h2',
        show fat_chain_len size + 1 = 2 + (fat_chain_len size - 1) by omega,
        chainAll_entries d size hs _ (by omega), if_pos rfl]
  · intro j hj1 hj2
    rw [hlow j hj2]
    exact chainAll_zero d size j (by omega) hj2 (by omega)
  · intro j hj
    show (if 512 ≤ 512 + j ∧ 512 + j < 1024 then chainAll d size (512 + j - 512)
          else chainAll d size (512 + j)) = _
    rw [if_pos ⟨by omega, by omega⟩, show 512 + j - 512 = j by omega, hlow j hj]
  · intro d' c v j
    exact set_fat12_nibble d' c v j

/-- Claim C4 counterexample: at size_bytes = 173569 the chain has 340 clusters
and the last entry (cluster 341) straddles the FAT1/FAT2 boundary; after the
FAT2 memcpy the entry read back from FAT1 is 15, not the claimed 0xFFF, so the
claim is false for unrestricted size_bytes. -/
theorem c4_counterexample :
    get_fat12_entry (update_fat_chain (fun _ => 0) 173569) 341 = 15 ∧ (15 : Nat) ≠ 4095 := by
  constructor
  · rfl
  · decide

/-- Claim C4 witness: the amended theorem applied at size 1024. -/
theorem c4_witness : fatChainOutcome (fun _ => 7) 1024 :=
  c4_update_fat_chain (fun _ => 7) 1024 (by decide)

theorem rebuildStep_len (pbuf : Nat → List Nat) :
    ∀ (l : List (Nat × FILE_ENTRY)) (acc : List Nat),
      acc.length ≤ FILE_CHAR_CNT - 2 →
      (l.foldl (rebuildStep pbuf) acc).length ≤ FILE_CHAR_CNT - 2 := by
  intro l
  induction l with
  | nil => intro acc h; simpa using h
  | cons ke rest ih =>
    intro acc h
    simp only [List.foldl_cons]
    apply ih
    unfold rebuildStep
    split
    · exact h
    · split
      · rename_i hlt
        simp only [List.length_append]
        omega
      · exact h

theorem rebuild_len (es : List FILE_ENTRY) (pbuf : Nat → List Nat) :
    (rebuildContent es pbuf).length ≤ FILE_CHAR_CNT - 2 := by
  unfold rebuildContent
  exact rebuildStep_len pbuf es.enum [] (Nat.zero_le _)

/-- Claim C2: after every run of validate_file the addressed directory entry
has starting cluster 2, its 32-bit size field equals the serialized content
length, the serialized bytes sit at FILE_SECTOR offset 0, and the rest of the
file region is zero.  The dir_index hypothesis covers every call the program
makes (find_file only returns indexes below 16). -/
theorem c2_validate_file (es : List FILE_ENTRY) (st : DiskState) (pOff : Int) (ra : Nat)
    (hra : ra < 16) : validateFileOutcome es st pOff ra := by
  have hmc : vf_content es st pOff =
      rebuildContent es (vf_rows es (vf_select es st pOff).2).1 := rfl
  have hm : (vf_content es st pOff).length ≤ 8190 := by
    have h := rebuild_len es (vf_rows es (vf_select es st pOff).2).1
    unfold FILE_CHAR_CNT at h
    rw [hmc]
    omega
  have hd : (validate_file es st pOff ra).2.disk = fun i =>
      if FILE_OFF ≤ i ∧ i < FILE_OFF + FILE_SECTOR_SIZE
      then (vf_content es st pOff).getD (i - FILE_OFF) 0
      else update_fat_chain
        (fun i' =>
          if i' = ROOT_OFF + ra * 32 + 0x1C then (vf_content es st pOff).length % 256
          else if i' = ROOT_OFF + ra * 32 + 0x1D then (vf_content es st pOff).length / 256 % 256
          else if i' = ROOT_OFF + ra * 32 + 0x1E then (vf_content es st pOff).length / 65536 % 256
          else if i' = ROOT_OFF + ra * 32 + 0x1F then
            (vf_content es st pOff).length / 16777216 % 256
          else if i' = ROOT_OFF + ra * 32 + 0x1A then 2
          else if i' = ROOT_OFF + ra * 32 + 0x1B then 0
          else (vf_select es st pOff).1 i')
        (vf_content es st pOff).length i := rfl
  refine ⟨?_, ?_, ?_, ?_, ?_⟩
  · simp only [hd, FILE_OFF, ROOT_OFF]
    rw [if_neg (by omega)]
    rw [update_fat_chain_high _ _ _ (by omega) (by omega)]
    rw [if_neg (by omega), if_neg (by omega), if_neg (by omega), if_neg (by omega),
        if_pos rfl]
  · simp only [hd, FILE_OFF, ROOT_OFF]
    rw [if_neg (by omega)]
    rw [update_fat_chain_high _ _ _ (by omega) (by omega)]
    rw [if_neg (by omega), if_neg (by omega), if_neg (by omega), if_neg (by omega),
        if_neg (by omega), if_pos rfl]
  · simp only [hd, FILE_OFF, ROOT_OFF]
    rw [if_neg (by omega), if_neg (by omega), if_neg (by omega), if_neg (by omega)]
    rw [update_fat_chain_high _ _ _ (by omega) (by omega),
        update_fat_chain_high _ _ _ (by omega) (by omega),
        update_fat_chain_high _ _ _ (by omega) (by omega),
        update_fat_chain_high _ _ _ (by omega) (by omega)]
    rw [if_pos rfl]
    rw [if_neg (by omega), if_pos rfl]
    rw [if_neg (by omega), if_neg (by omega), if_pos rfl]
    rw [if_neg (by omega), if_neg (by omega), if_neg (by omega), if_pos rfl]
    omega
  · intro i hi
    simp only [hd, FILE_OFF, FILE_SECTOR_SIZE, DISK_BUFFER_SIZE]
    rw [if_pos (by omega)]
    rw [show 1536 + i - 1536 = i by omega]
  · intro i hi1 hi2
    unfold FILE_SECTOR_SIZE DISK_BUFFER_SIZE FILE_OFF at hi2
    simp only [hd, FILE_OFF, FILE_SECTOR_SIZE, DISK_BUFFER_SIZE]
    rw [if_pos (by omega)]
    rw [show 1536 + i - 1536 = i by omega]
    exact List.getD_eq_default _ _ hi1

/-- Claim C2 witness: the theorem applied at a concrete call
(empty registry, zero state, p_file offset 0, directory index 0). -/
theorem c2_witness : (0 : Nat) < 16 ∧ validateFileOutcome [] stz 0 0 :=
  ⟨by decide, c2_validate_file [] stz 0 0 (by decide)⟩

/-- Claim C3 (amended): read_sector is a pure function of the mirror that
returns the boot sector at 0, the FAT1/FAT2/root mirrors at 8/20/32, the file
region window for in-range data sectors, and zeros everywhere else; the
compiled-in boot sector encodes the section-3 geometry except that its
total-sector fields hold 80 (16-bit) and 0 (32-bit), not 4096. -/
theorem c3_read_sector :
    (∀ (d : Nat → Nat) (s i : Nat), i < 512 → read_sector d s i = read_sector_spec d s i) ∧
    boot_sector_geometry := by
  constructor
  · intro d s i _hi
    unfold read_sector read_sector_spec SECTOR_CNT SECTOR_SIZE FILE_SECTOR_SIZE
      DISK_BUFFER_SIZE FILE_OFF FAT2_OFF ROOT_OFF
    by_cases h0 : s = 0
    · rw [if_pos h0, if_pos h0]
    rw [if_neg h0, if_neg h0]
    by_cases h17 : 1 ≤ s ∧ s ≤ 7
    · rw [if_pos h17, if_neg (by omega : ¬s = 8), if_neg (by omega : ¬s = 20),
          if_neg (by omega : ¬s = 32),
          if_neg (by omega : ¬(64 ≤ s ∧ s < 4096 ∧ (s - 64) * 512 + 512 ≤ 16384 - 1536))]
    rw [if_neg h17]
    by_cases h8r : 8 ≤ s ∧ s ≤ 19
    · rw [if_pos h8r]
      by_cases h8 : s = 8
      · rw [if_pos h8, if_pos h8]
      · rw [if_neg h8, if_neg h8, if_neg (by omega : ¬s = 20), if_neg (by omega : ¬s = 32),
            if_neg (by omega : ¬(64 ≤ s ∧ s < 4096 ∧ (s - 64) * 512 + 512 ≤ 16384 - 1536))]
    rw [if_neg h8r]
    by_cases h20r : 20 ≤ s ∧ s ≤ 31
    · rw [if_pos h20r, if_neg (by omega : ¬s = 8)]
      by_cases h20 : s = 20
      · rw [if_pos h20, if_pos h20]
      · rw [if_neg h20, if_neg h20, if_neg (by omega : ¬s = 32),
            if_neg (by omega : ¬(64 ≤ s ∧ s < 4096 ∧ (s - 64) * 512 + 512 ≤ 16384 - 1536))]
    rw [if_neg h20r]
    by_cases h32r : 32 ≤ s ∧ s ≤ 63
    · rw [if_pos h32r, if_neg (by omega : ¬s = 8), if_neg (by omega : ¬s = 20)]
      by_cases h32 : s = 32
      · rw [if_pos h32, if_pos h32]
      · rw [if_neg h32, if_neg h32,
            if_neg (by omega : ¬(64 ≤ s ∧ s < 4096 ∧ (s - 64) * 512 + 512 ≤ 16384 - 1536))]
    rw [if_neg h32r]
    by_cases h64 : 64 ≤ s ∧ s < 4096
    · rw [if_pos h64, if_neg (by omega : ¬s = 8), if_neg (by omega : ¬s = 20),
          if_neg (by omega : ¬s = 32)]
      by_cases hb : (s - 64) * 512 + 512 ≤ 16384 - 1536
      · rw [if_pos hb, if_pos ⟨h64.1, h64.2, hb⟩]
      · rw [if_neg hb, if_neg (by omega : ¬(64 ≤ s ∧ s < 4096 ∧ (s - 64) * 512 + 512 ≤ 16384 - 1536))]
    rw [if_neg h64, if_neg (by omega : ¬s = 8), if_neg (by omega : ¬s = 20),
        if_neg (by omega : ¬s = 32),
        if_neg (by omega : ¬(64 ≤ s ∧ s < 4096 ∧ (s - 64) * 512 + 512 ≤ 16384 - 1536))]
  · unfold boot_sector_geometry
    decide

/-- Claim C3 counterexample: the 16-bit total-sector field of the boot sector
returned for sector 0 holds 80, and the 32-bit large-sector field holds 0, so
the BPB does not encode a total-sector count of 4096. -/
theorem c3_counterexample :
    read_sector (fun _ => 0) 0 19 + 256 * read_sector (fun _ => 0) 0 20 = 80 ∧
    read_sector (fun _ => 0) 0 32 + 256 * read_sector (fun _ => 0) 0 33 +
      65536 * read_sector (fun _ => 0) 0 34 + 16777216 * read_sector (fun _ => 0) 0 35 = 0 ∧
    (80 : Nat) ≠ 4096 := by
  refine ⟨?_, ?_, by decide⟩ <;> rfl

/-- Claim C3 witness: the amended theorem applied at concrete inputs. -/
theorem c3_witness :
    (3 : Nat) < 512 ∧ read_sector (fun _ => 9) 20 3 = read_sector_spec (fun _ => 9) 20 3 :=
  ⟨by decide, c3_read_sector.1 (fun _ => 9) 20 3 (by decide)⟩

/-- Claim C10: evaluated at the failing input.  With CONFIG.TXT recorded at
starting cluster 100 (size nonzero), find_file returns the pointer offset
FILE_SECTOR + (100 - 2) * 512 = 51712 into the 16384-byte disk_buffer, so the
8192-byte copy validate_file performs from it reads far outside disk_buffer. -/
theorem c10_find_file_oob :
    find_file d10 = some (51712, 1, 0) ∧ ¬((51712 : Int) + 8192 ≤ 16384) := by
  constructor
  · rfl
  · decide

theorem rewrite_dirty_disk (st : DiskState) (e : Bool) (p : Nat → Bool) :
    (rewrite_dirty_flash_pages st e p).disk = st.disk := by
  unfold rewrite_dirty_flash_pages
  cases firstDirty st.dirty <;> rfl

/-- Claim C6 (amended): rewrite_dirty_flash_pages clears the dirty bit of the
page it handles before the erase is even attempted, so the resulting dirty
bitset is identical whether the flash operations succeed or fail, and the
next process() tick does not retry the page. -/
theorem c6_commit_clears_dirty_regardless :
    (∀ (st : DiskState) (e : Bool) (p : Nat → Bool),
      (rewrite_dirty_flash_pages st e p).dirty =
        (rewrite_dirty_flash_pages st true (fun _ => true)).dirty) ∧
    (∀ (st : DiskState) (e : Bool) (p : Nat → Bool) (i : Nat),
      firstDirty st.dirty = some i → (rewrite_dirty_flash_pages st e p).dirty i = 0) := by
  constructor
  · intro st e p
    unfold rewrite_dirty_flash_pages
    cases h : firstDirty st.dirty <;> rfl
  · intro st e p i h
    unfold rewrite_dirty_flash_pages
    rw [h]
    simp

/-- Claim C6 counterexample: with only page 2 dirty and both the erase and all
halfword programs failing, the dirty bit for page 2 is nevertheless cleared,
so no retry happens on the next tick. -/
theorem c6_counterexample :
    stD.dirty 2 = 1 ∧
    (rewrite_dirty_flash_pages stD false (fun _ => false)).dirty 2 = 0 := by
  constructor <;> rfl

/-- Claim C6 witness: the second part of the amended theorem at a concrete
dirty page. -/
theorem c6_witness :
    firstDirty stD.dirty = some 2 ∧
    (rewrite_dirty_flash_pages stD false (fun _ => false)).dirty 2 = 0 :=
  ⟨by decide,
   c6_commit_clears_dirty_regardless.2 stD false (fun _ => false) 2 (by decide)⟩

/-- Claim C9: when the deferred commit fires and either no CONFIG.TXT entry is
found among the first 16 root entries or its 16-bit size field is zero,
process() leaves the mirror untouched (validate_file does not run), commits
via rewrite_dirty_flash_pages on the unvalidated state, and clears the pending
flag. -/
theorem c9_process_commit_without_validate (es : List FILE_ENTRY) (st : DiskState)
    (now : Nat) (e : Bool) (p : Nat → Bool)
    (hp : st.pending = true)
    (ht : FLASH_WRITE_DELAY_MS ≤ elapsedTicks now st.lastTick)
    (hf : find_file st.disk = none ∨ ∃ off ra, find_file st.disk = some (off, 0, ra)) :
    (process es st now e p).disk = st.disk ∧
    (process es st now e p).dirty = (rewrite_dirty_flash_pages st e p).dirty ∧
    (process es st now e p).flash = (rewrite_dirty_flash_pages st e p).flash ∧
    (process es st now e p).pending = false := by
  have hstep : process es st now e p =
      { rewrite_dirty_flash_pages st e p with pending := false } := by
    unfold process
    rw [if_pos ⟨hp, ht⟩]
    rcases hf with h | ⟨off, ra, h⟩ <;> rw [h] <;> rfl
  rw [hstep]
  exact ⟨rewrite_dirty_disk st e p, rfl, rfl, rfl⟩

/-- Claim C9 witness: a pending zero state (no CONFIG.TXT anywhere) with the
commit delay elapsed. -/
theorem c9_witness :
    st9.pending = true ∧
    FLASH_WRITE_DELAY_MS ≤ elapsedTicks 600 st9.lastTick ∧
    find_file st9.disk = none ∧
    ((process [] st9 600 true (fun _ => true)).disk = st9.disk ∧
     (process [] st9 600 true (fun _ => true)).dirty =
       (rewrite_dirty_flash_pages st9 true (fun _ => true)).dirty ∧
     (process [] st9 600 true (fun _ => true)).flash =
       (rewrite_dirty_flash_pages st9 true (fun _ => true)).flash ∧
     (process [] st9 600 true (fun _ => true)).pending = false) :=
  ⟨rfl, by decide, by decide,
   c9_process_commit_without_validate [] st9 600 true (fun _ => true) rfl (by decide)
     (Or.inl (by decide))⟩

theorem validate_file_frame (es : List FILE_ENTRY) (st : DiskState) (pOff : Int) (ra : Nat) :
    (validate_file es st pOff ra).2.pending = st.pending ∧
    (validate_file es st pOff ra).2.flash = st.flash ∧
    (validate_file es st pOff ra).2.dirty =
      (fun i => if i = 0 ∨ i = 1 then 1 else st.dirty i) := by
  exact ⟨rfl, rfl, rfl⟩

/-- Claim C7 (amended): if init() runs with pending clear and flash holding a
valid image (CONFIG.TXT found by find_file after the load, and validate_file
reporting nothing illegal), then no flash write is scheduled — the pending
flag stays false — but the dirty bitset is not clear: validate_file
unconditionally marks exactly the FAT page (bit 0) and the root-directory page
(bit 1) dirty. -/
theorem c7_init_valid_image (es : List FILE_ENTRY) (st : DiskState) (now : Nat)
    (off : Int) (len ra : Nat)
    (hpend : st.pending = false)
    (hfind : find_file (load_from_flash st).disk = some (off, len, ra))
    (hval : (validate_file es (load_from_flash st) off ra).1 = false) :
    (init es st now).pending = false ∧
    (∀ i, (init es st now).dirty i = if i = 0 ∨ i = 1 then 1 else 0) := by
  have hinit : init es st now = (validate_file es (load_from_flash st) off ra).2 := by
    unfold init flush_file
    rw [hfind]
    simp only [hval, Bool.false_eq_true, if_false]
  rw [hinit]
  constructor
  · rw [(validate_file_frame es (load_from_flash st) off ra).1]
    exact hpend
  · intro i
    rw [(validate_file_frame es (load_from_flash st) off ra).2.2]
    show (if i = 0 ∨ i = 1 then 1 else (load_from_flash st).dirty i) = _
    by_cases h : i = 0 ∨ i = 1
    · rw [if_pos h, if_pos h]
    · rw [if_neg h, if_neg h]
      rfl

/-- Claim C7 counterexample: init() over a valid flash image (registry es0,
image flash0 whose CONFIG.TXT parses and validates unchanged) leaves the
root-directory dirty bit set, so the dirty bitset is not entirely clear even
though no flash write is scheduled. -/
theorem c7_counterexample :
    (init es0 st0 5).dirty 1 = 1 ∧ (init es0 st0 5).pending = false := by
  constructor <;> rfl

/-- Claim C7 witness: the amended theorem applied to the valid image flash0. -/
theorem c7_witness :
    st0.pending = false ∧
    find_file (load_from_flash st0).disk = some (1536, 8, 0) ∧
    (validate_file es0 (load_from_flash st0) 1536 0).1 = false ∧
    ((init es0 st0 7).pending = false ∧
     (∀ i, (init es0 st0 7).dirty i = if i = 0 ∨ i = 1 then 1 else 0)) :=
  ⟨rfl, by decide, by decide,
   c7_init_valid_image es0 st0 7 1536 8 0 rfl (by decide) (by decide)⟩

theorem bootSec_lt (i : Nat) : bootSec i < 256 := by
  unfold bootSec
  by_cases h : i < bootBytes.length
  · have hall : ∀ j, j < bootBytes.length → bootBytes.getD j 0 < 256 := by decide
    exact hall i h
  · rw [List.getD_eq_default _ _ (by omega)]
    omega

theorem read_sector_lt (d : Nat → Nat) (s i : Nat) : read_sector d s i < 256 := by
  unfold read_sector
  split_ifs <;> first
    | exact bootSec_lt i
    | exact Nat.mod_lt _ (by omega)
    | exact (by decide : (0 : Nat) < 256)

theorem writeOneSector_read_noop (es : List FILE_ENTRY) (st : DiskState) (s : Nat) :
    writeOneSector es st s (fun i => read_sector st.disk s i) = st := by
  unfold writeOneSector
  by_cases h8r : 8 ≤ s ∧ s ≤ 19
  · rw [if_pos h8r]
    by_cases h8 : s = 8
    · subst h8
      rw [if_pos rfl]
      unfold write_fat1_sector
      rw [if_pos ((bufEq_true_iff (fun i => read_sector st.disk 8 i)
        (fun i => rd st.disk i) SECTOR_SIZE).mpr (fun i _ => rfl))]
    · rw [if_neg h8]
  · rw [if_neg h8r]
    by_cases h20r : 20 ≤ s ∧ s ≤ 31
    · rw [if_pos h20r]
      by_cases h20 : s = 20
      · subst h20
        rw [if_pos rfl]
        unfold write_fat2_sector
        rw [if_pos ((bufEq_true_iff (fun i => read_sector st.disk 20 i)
          (fun i => rd st.disk (FAT2_OFF + i)) SECTOR_SIZE).mpr (fun i _ => rfl))]
      · rw [if_neg h20]
    · rw [if_neg h20r]
      by_cases h32r : 32 ≤ s ∧ s ≤ 63
      · rw [if_pos h32r]
        by_cases h32 : s = 32
        · subst h32
          rw [if_pos rfl]
          unfold write_root_sector
          rw [if_pos ((bufEq_true_iff (fun i => read_sector st.disk 32 i)
            (fun i => rd st.disk (ROOT_OFF + i)) SECTOR_SIZE).mpr (fun i _ => rfl))]
        · rw [if_neg h32]
      · rw [if_neg h32r]
        by_cases h64 : 64 ≤ s ∧ s < SECTOR_CNT
        · rw [if_pos h64]
          unfold write_data_sector
          by_cases hb : (s - 64) * SECTOR_SIZE + SECTOR_SIZE > FILE_SECTOR_SIZE
          · rw [if_pos hb]
          · rw [if_neg hb]
            unfold SECTOR_CNT at h64
            unfold FILE_SECTOR_SIZE DISK_BUFFER_SIZE FILE_OFF SECTOR_SIZE at hb
            have hr : ∀ i, i < 512 →
                read_sector st.disk s i = rd st.disk (FILE_OFF + (s - 64) * SECTOR_SIZE + i) := by
              intro i _hi
              unfold read_sector
              unfold FILE_SECTOR_SIZE DISK_BUFFER_SIZE FILE_OFF SECTOR_SIZE SECTOR_CNT
              rw [if_neg (by omega : ¬s = 0), if_neg (by omega : ¬(1 ≤ s ∧ s ≤ 7)),
                  if_neg (by omega : ¬(8 ≤ s ∧ s ≤ 19)), if_neg (by omega : ¬(20 ≤ s ∧ s ≤ 31)),
                  if_neg (by omega : ¬(32 ≤ s ∧ s ≤ 63)),
                  if_pos (by omega : 64 ≤ s ∧ s < 4096),
                  if_pos (by omega : (s - 64) * 512 + 512 ≤ 16384 - 1536)]
            by_cases hallow :
                dataAllow es st.disk (s - 64 + 2) (fun i => read_sector st.disk s i) = true
            · rw [if_pos hallow, if_pos ((bufEq_true_iff (fun i => read_sector st.disk s i)
                (fun i => rd st.disk (FILE_OFF + (s - 64) * SECTOR_SIZE + i)) SECTOR_SIZE).mpr
                (fun i hi => hr i hi))]
            · rw [if_neg hallow]
        · rw [if_neg h64]

/-- Claim C8 (amended): writing back through write_sector the exact bytes a
previous read_sector of the same sector returned leaves the Image Buffer
mirror, the dirty mask, the flash contents and the scan flags unchanged; only
the deferred-commit bookkeeping (pending flag and last-write tick) is touched.
The subsequent process() is not a no-op in general: it re-runs validate_file,
which may rewrite the mirror (see the counterexample). -/
theorem c8_writeback_mirror_noop (es : List FILE_ENTRY) (st : DiskState) (s now : Nat) :
    (write_sector es st (fun i => read_sector st.disk s i) s 1 now).disk = st.disk ∧
    (write_sector es st (fun i => read_sector st.disk s i) s 1 now).dirty = st.dirty ∧
    (write_sector es st (fun i => read_sector st.disk s i) s 1 now).flash = st.flash ∧
    (write_sector es st (fun i => read_sector st.disk s i) s 1 now).txtFlag = st.txtFlag ∧
    (write_sector es st (fun i => read_sector st.disk s i) s 1 now).configFlag = st.configFlag ∧
    (write_sector es st (fun i => read_sector st.disk s i) s 1 now).pending = true ∧
    (write_sector es st (fun i => read_sector st.disk s i) s 1 now).lastTick = now % U32_MOD := by
  have hws : write_sector es st (fun i => read_sector st.disk s i) s 1 now =
      { writeOneSector es st (s + 0)
          (fun i => (fun j => read_sector st.disk s j) (0 * SECTOR_SIZE + i) % 256)
        with pending := true, lastTick := now % U32_MOD } := rfl
  have hsec : (fun i => (fun j => read_sector st.disk s j) (0 * SECTOR_SIZE + i) % 256) =
      (fun i => read_sector st.disk s i) := by
    funext i
    have hlt := read_sector_lt st.disk s i
    simp only [Nat.zero_mul, Nat.zero_add]
    omega
  rw [hws, Nat.add_zero, hsec, writeOneSector_read_noop es st s]
  exact ⟨rfl, rfl, rfl, rfl, rfl, rfl, rfl⟩

/-- Claim C8 counterexample: from the reachable state c8s2 (boot over a valid
image, then a host write of an all-zero FAT sector, still pending), writing
back to sector 8 exactly the bytes read_sector returns and then running
process() after the commit delay changes the mirror: FAT1 byte 3 is 0 before
the sequence and 255 after process() re-normalizes the chain.  The round-trip
law therefore fails on this reachable state. -/
theorem c8_counterexample : c8s3.disk 3 = 0 ∧ c8s4.disk 3 = 255 := by
  constructor <;> rfl

/-- Claim C5 (amended): a differing write to sector 32 overwrites the root
mirror and updates the dirty bits and flags per the scan: when CONFIG.TXT is
found, the FAT and root dirty bits are cleared iff the LOW BYTE of its size
field is zero (the code truncates the 16-bit size to the u8 config_filesize),
with txt_flag set by this very scan; when no entry is found, the bits are
cleared iff txt_flag was already set; in every other differing case both
dirty bits end up set. -/
theorem c5_root_sector_write (es : List FILE_ENTRY) (st : DiskState) (buff : Nat → Nat)
    (now : Nat)
    (hdiff : ∃ i, i < 512 ∧ buff i % 256 ≠ rd st.disk (ROOT_OFF + i)) :
    rootWriteOutcome es st buff now := by
  have hsec0 : (fun i : Nat => buff (0 * SECTOR_SIZE + i) % 256) = (fun i => buff i % 256) := by
    funext i
    simp
  have hws : write_sector es st buff 32 1 now =
      { writeOneSector es st 32 (fun i => buff (0 * SECTOR_SIZE + i) % 256)
        with pending := true, lastTick := now % U32_MOD } := rfl
  have hone : writeOneSector es st 32 (fun i => buff i % 256) =
      write_root_sector st (fun i => buff i % 256) := by
    unfold writeOneSector
    rw [if_neg (by omega : ¬(8 ≤ 32 ∧ 32 ≤ 19)), if_neg (by omega : ¬(20 ≤ 32 ∧ 32 ≤ 31)),
        if_pos (⟨by omega, by omega⟩ : 32 ≤ 32 ∧ 32 ≤ 63), if_pos rfl]
  have hbeq : bufEq (fun i => buff i % 256) (fun i => rd st.disk (ROOT_OFF + i))
      SECTOR_SIZE = false := by
    rcases hdiff with ⟨i, hi, hne⟩
    cases hB : bufEq (fun i => buff i % 256) (fun i => rd st.disk (ROOT_OFF + i)) SECTOR_SIZE with
    | false => rfl
    | true => exact absurd ((bufEq_true_iff _ _ _).mp hB i hi) hne
  have hfull : write_sector es st buff 32 1 now =
      { write_root_sector st (fun i => buff i % 256)
        with pending := true, lastTick := now % U32_MOD } := by
    rw [hws, hsec0, hone]
  have happly : write_root_sector st (fun i => buff i % 256) =
      write_root_apply st (fun i => buff i % 256)
        (rawConfigScan (fun i => buff i % 256)) := by
    unfold write_root_sector
    rw [if_neg (by simp [hbeq])]
  refine ⟨?_, ?_, ?_, ?_⟩
  · rw [hfull]
    show (write_root_sector st (fun i => buff i % 256)).disk = _
    rw [happly]
    cases hscan : rawConfigScan (fun i => buff i % 256) with
    | none =>
      simp only [write_root_apply]
      by_cases ht : st.txtFlag = 1
      · rw [if_pos ht]
      · rw [if_neg ht]
    | some e =>
      simp only [write_root_apply]
      by_cases hz : (buff (e * 32 + 28) % 256 + 256 * (buff (e * 32 + 29) % 256)) % 256 = 0
      · rw [if_pos hz]
      · rw [if_neg hz]
  · intro j hj
    rw [hfull]
    show (write_root_sector st (fun i => buff i % 256)).dirty j = _
    rw [happly]
    cases hscan : rawConfigScan (fun i => buff i % 256) with
    | none =>
      simp only [write_root_apply]
      by_cases ht : st.txtFlag = 1
      · rw [if_pos ht]
        show (if j = 0 ∨ j = 1 then 0 else if j = 1 then 1 else st.dirty j) = st.dirty j
        rw [if_neg (by omega), if_neg (by omega)]
      · rw [if_neg ht]
        show (if j = 0 then 1 else if j = 1 then 1 else st.dirty j) = st.dirty j
        rw [if_neg (by omega), if_neg (by omega)]
    | some e =>
      simp only [write_root_apply]
      by_cases hz : (buff (e * 32 + 28) % 256 + 256 * (buff (e * 32 + 29) % 256)) % 256 = 0
      · rw [if_pos hz]
        show (if j = 0 ∨ j = 1 then 0 else if j = 1 then 1 else st.dirty j) = st.dirty j
        rw [if_neg (by omega), if_neg (by omega)]
      · rw [if_neg hz]
        show (if j = 0 then 1 else if j = 1 then 1 else st.dirty j) = st.dirty j
        rw [if_neg (by omega), if_neg (by omega)]
  · intro e hscan
    rw [hfull]
    refine ⟨?_, ?_, ?_⟩
    · show (write_root_sector st (fun i => buff i % 256)).configFlag = _
      rw [happly, hscan]
      simp only [write_root_apply]
      by_cases hz : (buff (e * 32 + 28) % 256 + 256 * (buff (e * 32 + 29) % 256)) % 256 = 0
      · rw [if_pos hz]
      · rw [if_neg hz]
    · intro h0
      have hz : (buff (e * 32 + 28) % 256 + 256 * (buff (e * 32 + 29) % 256)) % 256 = 0 := by
        have h0' : buff (e * 32 + 28) % 256 = 0 := h0
        omega
      refine ⟨?_, ?_, ?_⟩ <;>
        (first
          | show (write_root_sector st (fun i => buff i % 256)).dirty 0 = 0
          | show (write_root_sector st (fun i => buff i % 256)).dirty 1 = 0
          | show (write_root_sector st (fun i => buff i % 256)).txtFlag = 0) <;>
        rw [happly, hscan] <;> simp only [write_root_apply] <;> rw [if_pos hz] <;> rfl
    · intro h0
      have hz : ¬((buff (e * 32 + 28) % 256 + 256 * (buff (e * 32 + 29) % 256)) % 256 = 0) := by
        have h0' : ¬(buff (e * 32 + 28) % 256 = 0) := h0
        omega
      refine ⟨?_, ?_, ?_⟩ <;>
        (first
          | show (write_root_sector st (fun i => buff i % 256)).dirty 0 = 1
          | show (write_root_sector st (fun i => buff i % 256)).dirty 1 = 1
          | show (write_root_sector st (fun i => buff i % 256)).txtFlag = 1) <;>
        rw [happly, hscan] <;> simp only [write_root_apply] <;> rw [if_neg hz] <;> rfl
  · intro hscan
    rw [hfull]
    refine ⟨?_, ?_, ?_⟩
    · show (write_root_sector st (fun i => buff i % 256)).configFlag = _
      rw [happly, hscan]
      simp only [write_root_apply]
      by_cases ht : st.txtFlag = 1
      · rw [if_pos ht]
      · rw [if_neg ht]
    · intro ht
      refine ⟨?_, ?_, ?_⟩ <;>
        (first
          | show (write_root_sector st (fun i => buff i % 256)).dirty 0 = 0
          | show (write_root_sector st (fun i => buff i % 256)).dirty 1 = 0
          | show (write_root_sector st (fun i => buff i % 256)).txtFlag = 0) <;>
        rw [happly, hscan] <;> simp only [write_root_apply] <;> rw [if_pos ht] <;> rfl
    · intro ht
      refine ⟨?_, ?_, ?_⟩ <;>
        (first
          | show (write_root_sector st (fun i => buff i % 256)).dirty 0 = 1
          | show (write_root_sector st (fun i => buff i % 256)).dirty 1 = 1
          | show (write_root_sector st (fun i => buff i % 256)).txtFlag = st.txtFlag) <;>
        rw [happly, hscan] <;> simp only [write_root_apply] <;> rw [if_neg ht] <;> rfl

/-- Claim C5 counterexample: a differing root write whose CONFIG.TXT entry has
size field 256 (nonzero) from a state where CONFIG.TXT was never seen with
content (txt_flag = 0): the claim says the dirty flags must remain or become
set, but the code clears both (the u8 truncation reads the size as zero and
the scan itself set the seen-flag). -/
theorem c5_counterexample :
    buffc5 0x1C + 256 * buffc5 0x1D = 256 ∧ (256 : Nat) ≠ 0 ∧ stz.txtFlag = 0 ∧
    (write_sector [] stz buffc5 32 1 0).dirty 0 = 0 ∧
    (write_sector [] stz buffc5 32 1 0).dirty 1 = 0 := by
  exact ⟨by decide, by decide, rfl, rfl, rfl⟩

/-- Claim C5 witness: the amended theorem applied to the concrete root write
buffc5 over the zero state. -/
theorem c5_witness :
    (∃ i, i < 512 ∧ buffc5 i % 256 ≠ rd stz.disk (ROOT_OFF + i)) ∧
    rootWriteOutcome [] stz buffc5 0 :=
  ⟨⟨0, by decide, by decide⟩,
   c5_root_sector_write [] stz buffc5 0 ⟨0, by decide, by decide⟩⟩

theorem dot_bool_iff (sec : Nat → Nat) :
    (!(sec 0 == 0 || sec 0 == 5 || (sec 0 == 46 && sec 1 != 0))) = true ↔
    ¬(sec 0 = 0 ∨ sec 0 = 5 ∨ (sec 0 = 46 ∧ sec 1 ≠ 0)) := by
  simp [not_or]
  tauto

theorem dataAllow_iff (es : List FILE_ENTRY) (disk : Nat → Nat) (cl : Nat)
    (sec : Nat → Nat) :
    dataAllow es disk cl sec = true ↔
      ((0 < get_config_start_cluster disk ∧ cl = get_config_start_cluster disk) ∨
       (¬(0 < get_config_start_cluster disk ∧ cl = get_config_start_cluster disk) ∧
         cl = 2 ∧ looks_like_config es sec) ∨
       (¬(0 < get_config_start_cluster disk ∧ cl = get_config_start_cluster disk) ∧
         cl ≠ 2 ∧
         (2 < cl ∧ cl ≤ 2 + FILE_SECTOR_SIZE / SECTOR_SIZE ∧
           looks_like_config es (fun i => rd disk (FILE_OFF + i))) ∧
         ¬(sec 0 = 0 ∨ sec 0 = 5 ∨ (sec 0 = 46 ∧ sec 1 ≠ 0))) ∨
       (¬(0 < get_config_start_cluster disk ∧ cl = get_config_start_cluster disk) ∧
         cl ≠ 2 ∧
         ¬(2 < cl ∧ cl ≤ 2 + FILE_SECTOR_SIZE / SECTOR_SIZE ∧
           looks_like_config es (fun i => rd disk (FILE_OFF + i))))) := by
  unfold dataAllow
  by_cases h1 : 0 < get_config_start_cluster disk ∧ cl = get_config_start_cluster disk
  · rw [if_pos h1]
    constructor
    · intro _
      exact Or.inl h1
    · intro _
      rfl
  · rw [if_neg h1]
    by_cases h2 : cl = 2
    · rw [if_pos h2]
      constructor
      · intro h
        exact Or.inr (Or.inl ⟨h1, h2, (startsWithLabelEq_iff es sec).mp h⟩)
      · rintro (hA | ⟨_, _, hL⟩ | ⟨_, hc2, _⟩ | ⟨_, hc2, _⟩)
        · exact absurd hA h1
        · exact (startsWithLabelEq_iff es sec).mpr hL
        · exact absurd h2 hc2
        · exact absurd h2 hc2
    · rw [if_neg h2]
      by_cases h3 : 2 < cl ∧ cl ≤ 2 + FILE_SECTOR_SIZE / SECTOR_SIZE ∧
          startsWithLabelEq es (fun i => rd disk (FILE_OFF + i)) = true
      · rw [if_pos h3]
        constructor
        · intro h
          exact Or.inr (Or.inr (Or.inl ⟨h1, h2,
            ⟨h3.1, h3.2.1, (startsWithLabelEq_iff _ _).mp h3.2.2⟩,
            (dot_bool_iff sec).mp h⟩))
        · rintro (hA | ⟨_, hc2, _⟩ | ⟨_, _, _, hnd⟩ | ⟨_, _, hn3⟩)
          · exact absurd hA h1
          · exact absurd hc2 h2
          · exact (dot_bool_iff sec).mpr hnd
          · exact absurd ⟨h3.1, h3.2.1, (startsWithLabelEq_iff _ _).mp h3.2.2⟩ hn3
      · rw [if_neg h3]
        constructor
        · intro _
          refine Or.inr (Or.inr (Or.inr ⟨h1, h2, ?_⟩))
          rintro ⟨ha, hb, hc⟩
          exact h3 ⟨ha, hb, (startsWithLabelEq_iff _ _).mpr hc⟩
        · intro _
          rfl

/-- Claim C1 (amended): the gatekeeper classification of a bounded data-sector
write is exactly the spec's cascade; an accepted differing sector is copied to
FILE_SECTOR + (s-64)*512 and dirty bit (s-64)*512 / FLASH_PAGE_SIZE + 1 is set
(for (s-64)*512 ≡ 512 (mod 1024) this is NOT the page covering the modified
bytes — see the counterexample); a rejected sector changes neither the mirror
nor the dirty mask. -/
theorem c1_data_sector_gatekeeper (es : List FILE_ENTRY) (st : DiskState)
    (buff : Nat → Nat) (s now : Nat)
    (h64 : 64 ≤ s) (hlt : s < SECTOR_CNT)
    (hbound : (s - 64) * SECTOR_SIZE + SECTOR_SIZE ≤ FILE_SECTOR_SIZE) :
    dataWriteOutcome es st buff s now := by
  have hsec0 : (fun i : Nat => buff (0 * SECTOR_SIZE + i) % 256) = (fun i => buff i % 256) := by
    funext i
    simp
  have hws : write_sector es st buff s 1 now =
      { writeOneSector es st (s + 0) (fun i => buff (0 * SECTOR_SIZE + i) % 256)
        with pending := true, lastTick := now % U32_MOD } := rfl
  have hone : writeOneSector es st s (fun i => buff i % 256) =
      write_data_sector es st s (fun i => buff i % 256) := by
    unfold writeOneSector
    unfold SECTOR_CNT at hlt ⊢
    rw [if_neg (by omega), if_neg (by omega), if_neg (by omega), if_pos ⟨h64, by omega⟩]
  have hfull : write_sector es st buff s 1 now =
      { write_data_sector es st s (fun i => buff i % 256)
        with pending := true, lastTick := now % U32_MOD } := by
    rw [hws, Nat.add_zero, hsec0, hone]
  have hnb : ¬((s - 64) * SECTOR_SIZE + SECTOR_SIZE > FILE_SECTOR_SIZE) := by omega
  constructor
  · intro hacc hdiff
    have hallow : dataAllow es st.disk (s - 64 + 2) (fun i => buff i % 256) = true :=
      (dataAllow_iff es st.disk (s - 64 + 2) (fun i => buff i % 256)).mpr hacc
    have hbeq : bufEq (fun i => buff i % 256)
        (fun i => rd st.disk (FILE_OFF + (s - 64) * SECTOR_SIZE + i)) SECTOR_SIZE = false := by
      cases hB : bufEq (fun i => buff i % 256)
          (fun i => rd st.disk (FILE_OFF + (s - 64) * SECTOR_SIZE + i)) SECTOR_SIZE with
      | false => rfl
      | true => exact absurd (fun i hi => (bufEq_true_iff _ _ _).mp hB i hi) hdiff
    constructor
    · rw [hfull]
      show (write_data_sector es st s (fun i => buff i % 256)).disk = _
      unfold write_data_sector
      rw [if_neg hnb, if_pos hallow, if_neg (by simp [hbeq])]
    · rw [hfull]
      show (write_data_sector es st s (fun i => buff i % 256)).dirty = _
      unfold write_data_sector
      rw [if_neg hnb, if_pos hallow, if_neg (by simp [hbeq])]
  · intro hnacc
    have hallow : ¬(dataAllow es st.disk (s - 64 + 2) (fun i => buff i % 256) = true) :=
      fun h => hnacc ((dataAllow_iff es st.disk (s - 64 + 2) (fun i => buff i % 256)).mp h)
    constructor
    · rw [hfull]
      show (write_data_sector es st s (fun i => buff i % 256)).disk = st.disk
      unfold write_data_sector
      rw [if_neg hnb, if_neg hallow]
    · rw [hfull]
      show (write_data_sector es st s (fun i => buff i % 256)).dirty = st.dirty
      unfold write_data_sector
      rw [if_neg hnb, if_neg hallow]

/-- Claim C1 counterexample: an accepted differing write to data sector 65
(registry empty, zero state, so the classification falls through to accept)
changes mirror byte 2048, which lies in flash page 2048/1024 = 2, but the code
marks dirty bit 512/1024 + 1 = 1 and leaves bit 2 clear — the covering flash
page is NOT marked dirty. -/
theorem c1_counterexample :
    stz.disk 2048 = 0 ∧
    (write_sector [] stz (fun _ => 65) 65 1 0).disk 2048 = 65 ∧
    (write_sector [] stz (fun _ => 65) 65 1 0).dirty (2048 / 1024) = 0 ∧
    (write_sector [] stz (fun _ => 65) 65 1 0).dirty 1 = 1 := by
  exact ⟨rfl, rfl, rfl, rfl⟩

/-- Claim C1 witness: the amended theorem applied to a concrete bounded data
sector. -/
theorem c1_witness :
    (64 : Nat) ≤ 64 ∧ (64 : Nat) < SECTOR_CNT ∧
    (64 - 64) * SECTOR_SIZE + SECTOR_SIZE ≤ FILE_SECTOR_SIZE ∧
    dataWriteOutcome [] stz (fun _ => 65) 64 0 :=
  ⟨by decide, by decide, by decide,
   c1_data_sector_gatekeeper [] stz (fun _ => 65) 64 0 (by decide) (by decide) (by decide)⟩
